import Mathlib

/-!
Verification of the session-authenticated web application in `server.js`
(Express + Sequelize + bcrypt).  The relational store, the session, the
route handlers and the startup bootstrap are embedded as pure Lean
functions; asynchronous store failures are injected through an explicit
`infra : Option String` parameter standing for a rejected promise whose
`error.message` is the carried string.
-/

/-!
## Model of the bcrypt library (external dependency)

Modelled from the spec: `bcrypt.hash`/`bcrypt.compare` are not part of the
repository.  `hash(plaintext)` produces a salted one-way string (same input,
different salt, different output) and `verify(plaintext, hashed)` recomputes
with the salt embedded in `hashed`.  We render a hash as
`"$" ++ salt ++ "$" ++ plaintext` with a numeric salt; `bcryptCompare`
extracts the salt (the maximal `'$'`-free segment after the leading `'$'`)
and recomputes.  Decimal numerals never contain `'$'`, so comparison is
exact: it accepts precisely the plaintext the hash was built from.
-/

def bcryptHash (salt : Nat) (plaintext : String) : String :=
  "$" ++ toString salt ++ "$" ++ plaintext

def bcryptSalt (hashed : String) : String :=
  String.mk ((hashed.data.drop 1).takeWhile (fun c => c != '$'))

def bcryptCompare (plaintext hashed : String) : Bool :=
  hashed == "$" ++ bcryptSalt hashed ++ "$" ++ plaintext

/-! ## Data model: the two Sequelize tables and the session snapshot -/

/-- Row of the `Role` table: `id` (auto-increment primary key) and a
unique, non-null `name`. -/
structure Role where
  id : Nat
  name : String
deriving DecidableEq

/-- Row of the `User` table: `id` (auto-increment primary key), unique
non-null `login`, non-null `password` (stores the bcrypt hash) and a
non-null `roleId` referencing `Role.id`. -/
structure User where
  id : Nat
  login : String
  password : String
  roleId : Nat
deriving DecidableEq

/-- The SQLite store: both tables plus the auto-increment counters. -/
structure DB where
  roles : List Role
  users : List User
  nextRoleId : Nat
  nextUserId : Nat
deriving DecidableEq

/-- The denormalized identity snapshot written to `req.session.user` at
login: `{ id: user.id, login: user.login, role: user.Role.name }`. -/
structure SessionUser where
  id : Nat
  login : String
  role : String
deriving DecidableEq

/-- An HTTP response as produced by the handlers: `res.redirect(loc)`,
`res.status(n).send(body)` (plain `res.send` is status 200),
`res.render(view)`, or no response at all (`hang`: an exception escaping
an async middleware, which Express 4 does not catch). -/
inductive Response where
  | redirect (location : String)
  | send (status : Nat) (body : String)
  | render (view : String)
  | hang
deriving DecidableEq

/-! ## Persistence operations (Sequelize calls used by `server.js`) -/

/-- `Role.findOne({ where: { name } })`. -/
def findRoleByName (db : DB) (name : String) : Option Role :=
  db.roles.find? (fun r => r.name == name)

/-- Lookup of the `Role` association included with a `User`
(`include: Role` resolves the user's `roleId` against `Role.id`). -/
def findRoleById (db : DB) (id : Nat) : Option Role :=
  db.roles.find? (fun r => r.id == id)

/-- `User.findOne({ where: { login } })`. -/
def findUserByLogin (db : DB) (lg : String) : Option User :=
  db.users.find? (fun u => u.login == lg)

/-- `User.findByPk(id)`. -/
def findUserByPk (db : DB) (id : Nat) : Option User :=
  db.users.find? (fun u => u.id == id)

/-- `User.count()`. -/
def countUsers (db : DB) : Nat :=
  db.users.length

/-- `User.create({ login, password, roleId })`: rejects with a constraint
violation when the unique `login` already exists or `roleId` references
no `Role` row; otherwise appends the row under the next primary key. -/
def createUser (db : DB) (lg pw : String) (roleId : Nat) : Except String DB :=
  if db.users.any (fun u => u.login == lg) then
    Except.error "Validation error"
  else if (findRoleById db roleId).isNone then
    Except.error "SQLITE_CONSTRAINT: FOREIGN KEY constraint failed"
  else
    Except.ok { db with
      users := db.users ++ [⟨db.nextUserId, lg, pw, roleId⟩],
      nextUserId := db.nextUserId + 1 }

/-- `Role.findOrCreate({ where: { name }, defaults: { name } })`: returns
the existing row if present, else inserts a fresh one. -/
def findOrCreateRole (db : DB) (name : String) : Role × DB :=
  match findRoleByName db name with
  | some r => (r, db)
  | none =>
      let r : Role := ⟨db.nextRoleId, name⟩
      (r, { db with roles := db.roles ++ [r], nextRoleId := db.nextRoleId + 1 })

/-- The `sequelize.sync().then(...)` startup block: find-or-create the
`"user"` and `"admin"` roles, then, when the `User` table is empty, create
the default administrator `admin`/`admin` (password hashed). The trailing
`.catch` only logs, so a failing create leaves the store as it was. -/
def bootstrap (salt : Nat) (db : DB) : DB :=
  let p1 := findOrCreateRole db "user"
  let p2 := findOrCreateRole p1.2 "admin"
  if countUsers p2.2 = 0 then
    match createUser p2.2 "admin" (bcryptHash salt "admin") p2.1.id with
    | Except.ok db3 => db3
    | Except.error _ => p2.2
  else
    p2.2

/-! ## Access-control middleware -/

/-- `isAuthenticated(req, res, next)`: `next()` when `req.session.user`
is set, else `res.redirect("/login")`. -/
def isAuthenticated (sess : Option SessionUser) (next : Response) : Response :=
  match sess with
  | some _ => next
  | none => Response.redirect "/login"

/-- `hasRole(roleName)` middleware: with a session present it re-loads the
user by the session's id (`User.findByPk(id, { include: Role })`); when the
user exists and `user.Role.name === roleName` it calls `next()`, otherwise
it sends 403.  Without a session it redirects to `/login`.  A user whose
included `Role` is missing makes `user.Role.name` throw inside the async
middleware, which Express 4 does not catch (`Response.hang`). -/
def hasRole (roleName : String) (db : DB) (sess : Option SessionUser)
    (next : Response) : Response :=
  match sess with
  | some su =>
      match findUserByPk db su.id with
      | some u =>
          match findRoleById db u.roleId with
          | some r =>
              if r.name == roleName then next
              else Response.send 403 "Доступ запрещен"
          | none => Response.hang
      | none => Response.send 403 "Доступ запрещен"
  | none => Response.redirect "/login"

/-! ## Route handlers -/

/-- `GET /`: redirect to `/profile` when a session exists, else `/login`. -/
def getRoot (sess : Option SessionUser) : Response :=
  match sess with
  | some _ => Response.redirect "/profile"
  | none => Response.redirect "/login"

/-- `GET /register`: render the registration form. -/
def getRegisterPage : Response :=
  Response.render "register"

/-- `GET /login`: render the login form. -/
def getLoginPage : Response :=
  Response.render "login"

/-- `POST /register`.  `infra = some msg` injects a store failure (a
rejected promise with `error.message = msg`), which the handler's `catch`
turns into a 400; otherwise: look up the `"user"` role (400 if absent),
hash the password, create the user (constraint violations land in the same
`catch`, again 400 with the underlying message) and redirect to `/login`.
Returns the response together with the resulting store. -/
def postRegister (infra : Option String) (salt : Nat) (db : DB)
    (lg pw : String) : Response × DB :=
  match infra with
  | some msg => (Response.send 400 ("Ошибка регистрации: " ++ msg), db)
  | none =>
      match findRoleByName db "user" with
      | none => (Response.send 400 "Роль не найдена", db)
      | some role =>
          match createUser db lg (bcryptHash salt pw) role.id with
          | Except.error msg =>
              (Response.send 400 ("Ошибка регистрации: " ++ msg), db)
          | Except.ok db1 => (Response.redirect "/login", db1)

/-- `POST /login`.  `infra = some msg` injects a store failure, which the
handler's `catch` turns into a 500; otherwise: find the user by login
(with its Role); when found and `bcrypt.compare` succeeds, write the
`{id, login, role}` snapshot into the session and redirect to `/profile`;
in every other case answer 401 with one generic message and leave the
session alone.  Reading `user.Role.name` with the Role association missing
throws a TypeError, caught by the same `catch` as a 500.  Returns the
response together with the session after the request. -/
def postLogin (infra : Option String) (db : DB) (sess : Option SessionUser)
    (lg pw : String) : Response × Option SessionUser :=
  match infra with
  | some msg => (Response.send 500 ("Ошибка сервера: " ++ msg), sess)
  | none =>
      match findUserByLogin db lg with
      | none => (Response.send 401 "Неверный логин или пароль", sess)
      | some user =>
          if bcryptCompare pw user.password then
            match findRoleById db user.roleId with
            | none =>
                (Response.send 500
                  "Ошибка сервера: Cannot read properties of null", sess)
            | some role =>
                (Response.redirect "/profile",
                 some ⟨user.id, user.login, role.name⟩)
          else (Response.send 401 "Неверный логин или пароль", sess)

/-- `GET /profile`, guarded by `isAuthenticated`: greets the session's
login and offers a logout link.  The handler touches only the session
snapshot, never the store. -/
def getProfile (sess : Option SessionUser) : Response :=
  isAuthenticated sess
    (match sess with
     | some u =>
         Response.send 200
           ("Добро пожаловать, " ++ u.login ++ "! <a href=\"/logout\">Выйти</a>")
     | none => Response.hang)

/-- `GET /admin`, guarded by `isAuthenticated` then `hasRole("admin")`. -/
def getAdmin (db : DB) (sess : Option SessionUser) : Response :=
  isAuthenticated sess
    (hasRole "admin" db sess
      (Response.send 200
        "Добро пожаловать в админ-панель! Только для администраторов."))

/-- `GET /logout`: `req.session.destroy(cb)` — on success the server-side
session is gone; when the session store reports an error the callback only
logs it and the session data survives; either way the callback redirects
to `/`. -/
def getLogout (destroyErr : Option String) (sess : Option SessionUser) :
    Response × Option SessionUser :=
  match destroyErr with
  | some _ => (Response.redirect "/", sess)
  | none => (Response.redirect "/", none)

/-- The empty store a first-ever startup runs against. -/
def emptyDB : DB :=
  ⟨[], [], 1, 1⟩

/-!
## Supporting lemmas: decimal numerals never contain the separator `'$'`
-/

theorem digitChar_ne_dollar (n : Nat) : Nat.digitChar n ≠ '$' := by
  by_cases h : n < 16
  · interval_cases n <;> decide
  · have h16 : Nat.digitChar n = '*' := by
      unfold Nat.digitChar
      repeat rw [if_neg (by omega)]
    rw [h16]
    decide

theorem toDigitsCore_ne_dollar (b : Nat) (f : Nat) :
    ∀ (n : Nat) (ds : List Char), (∀ c ∈ ds, c ≠ '$') →
      ∀ c ∈ Nat.toDigitsCore b f n ds, c ≠ '$' := by
  induction f with
  | zero => intro n ds h; simpa [Nat.toDigitsCore] using h
  | succ f ih =>
    intro n ds h
    simp only [Nat.toDigitsCore]
    split
    · intro c hc
      rcases List.mem_cons.mp hc with rfl | hc
      · exact digitChar_ne_dollar _
      · exact h c hc
    · refine ih _ _ ?_
      intro c hc
      rcases List.mem_cons.mp hc with rfl | hc
      · exact digitChar_ne_dollar _
      · exact h c hc

theorem toString_nat_ne_dollar (n : Nat) : ∀ c ∈ (toString n).data, c ≠ '$' := by
  have : (toString n).data = Nat.toDigits 10 n := rfl
  rw [this]
  exact toDigitsCore_ne_dollar 10 (n + 1) n [] (by simp)

theorem takeWhile_dollar (l1 l2 : List Char) (h : ∀ c ∈ l1, c ≠ '$') :
    (l1 ++ '$' :: l2).takeWhile (fun c => c != '$') = l1 := by
  induction l1 with
  | nil => simp
  | cons a t ih =>
    have ha : (a != '$') = true := by
      simpa using h a (List.mem_cons_self a t)
    simp only [List.cons_append, List.takeWhile_cons, ha, if_true]
    rw [ih (fun c hc => h c (List.mem_cons_of_mem a hc))]

/-!
## Supporting lemmas: the bcrypt model verifies exactly its own plaintext
-/

theorem data_dollar (a b : String) :
    ("$" ++ a ++ "$" ++ b).data = '$' :: (a.data ++ '$' :: b.data) := by
  have hd : "$".data = ['$'] := rfl
  simp [String.data_append, hd]

theorem bcryptSalt_hash (salt : Nat) (p : String) :
    bcryptSalt (bcryptHash salt p) = toString salt := by
  unfold bcryptSalt bcryptHash
  rw [data_dollar]
  simp only [List.drop_succ_cons, List.drop_zero]
  rw [takeWhile_dollar _ _ (toString_nat_ne_dollar salt)]

theorem bcryptCompare_hash (salt : Nat) (p : String) :
    bcryptCompare p (bcryptHash salt p) = true := by
  unfold bcryptCompare
  rw [bcryptSalt_hash]
  exact beq_self_eq_true _

theorem bcryptCompare_hash_ne (salt : Nat) (p q : String) (h : q ≠ p) :
    bcryptCompare q (bcryptHash salt p) = false := by
  unfold bcryptCompare
  rw [bcryptSalt_hash, beq_eq_false_iff_ne]
  intro heq
  apply h
  have hd := congrArg String.data heq
  rw [data_dollar] at hd
  unfold bcryptHash at hd
  rw [data_dollar] at hd
  have h2 := List.append_cancel_left (List.tail_eq_of_cons_eq hd)
  exact (String.ext (List.tail_eq_of_cons_eq h2)).symm

theorem bcryptHash_ne_plaintext (salt : Nat) (p : String) :
    bcryptHash salt p ≠ p := by
  intro heq
  have hd := congrArg (fun s => s.data.length) heq
  simp only [bcryptHash, data_dollar] at hd
  simp at hd
  omega

/-!
## Supporting lemmas: lookups in lists with unique keys
-/

theorem find_eq_of_mem_of_nodup {α β : Type} [DecidableEq β] (f : α → β) (l : List α)
    (hnd : (l.map f).Nodup) (a : α) (ha : a ∈ l) (b : β) (hb : f a = b) :
    l.find? (fun x => f x == b) = some a := by
  induction l with
  | nil => exact absurd ha (List.not_mem_nil a)
  | cons c t ih =>
    obtain ⟨h1, h2⟩ : (∀ x ∈ t, ¬f x = f c) ∧ (t.map f).Nodup := by simpa using hnd
    rcases List.mem_cons.mp ha with rfl | hat
    · rw [List.find?_cons_of_pos _ (by simp [hb])]
    · by_cases hc : f c = b
      · exact absurd (hb.trans hc.symm) (h1 a hat)
      · rw [List.find?_cons_of_neg _ (by simp [hc])]
        exact ih h2 hat

theorem length_filter_eq_one {α β : Type} [DecidableEq β] (f : α → β) (l : List α) (b : β)
    (hnd : (l.map f).Nodup) (a : α) (ha : a ∈ l) (hb : f a = b) :
    (l.filter (fun x => f x == b)).length = 1 := by
  induction l with
  | nil => exact absurd ha (List.not_mem_nil a)
  | cons c t ih =>
    obtain ⟨h1, h2⟩ : (∀ x ∈ t, ¬f x = f c) ∧ (t.map f).Nodup := by simpa using hnd
    by_cases hc : f c = b
    · rw [List.filter_cons_of_pos (by simp [hc])]
      have ht : t.filter (fun x => f x == b) = [] := by
        rw [List.filter_eq_nil_iff]
        intro x hx
        simp only [beq_iff_eq]
        intro hxb
        exact h1 x hx (hxb.trans hc.symm)
      simp [ht]
    · rw [List.filter_cons_of_neg (by simp [hc])]
      rcases List.mem_cons.mp ha with rfl | hat
      · exact absurd hb hc
      · exact ih h2 hat

/-!
## Supporting lemmas: `createUser` and `findOrCreateRole`
-/

theorem createUser_ok (db : DB) (lg pw : String) (rid : Nat) (db1 : DB)
    (h : createUser db lg pw rid = Except.ok db1) :
    db1 = { db with
      users := db.users ++ [⟨db.nextUserId, lg, pw, rid⟩],
      nextUserId := db.nextUserId + 1 } := by
  unfold createUser at h
  split at h
  · exact absurd h (by simp)
  · split at h
    · exact absurd h (by simp)
    · exact (Except.ok.inj h).symm

theorem createUser_ok_of (db : DB) (lg pw : String) (rid : Nat)
    (hl : ∀ u ∈ db.users, ¬u.login = lg) (hr : ∃ r ∈ db.roles, r.id = rid) :
    createUser db lg pw rid = Except.ok { db with
      users := db.users ++ [⟨db.nextUserId, lg, pw, rid⟩],
      nextUserId := db.nextUserId + 1 } := by
  obtain ⟨r, hrm, hrid⟩ := hr
  have h1 : db.users.any (fun u => u.login == lg) = false := by
    simp only [List.any_eq_false, beq_iff_eq]
    exact hl
  have h2 : (findRoleById db rid).isSome = true := by
    unfold findRoleById
    rw [List.find?_isSome]
    exact ⟨r, hrm, by simp [hrid]⟩
  have h3 : (findRoleById db rid).isNone = false := by
    rcases Option.isSome_iff_exists.mp h2 with ⟨a, ha⟩
    simp [ha]
  simp [createUser, h1, h3]

theorem findOrCreateRole_users (db : DB) (n : String) :
    ((findOrCreateRole db n).2).users = db.users := by
  unfold findOrCreateRole
  split <;> rfl

theorem findOrCreateRole_nextUserId (db : DB) (n : String) :
    ((findOrCreateRole db n).2).nextUserId = db.nextUserId := by
  unfold findOrCreateRole
  split <;> rfl

theorem findOrCreateRole_name (db : DB) (n : String) :
    (findOrCreateRole db n).1.name = n := by
  unfold findOrCreateRole
  split
  case _ r hr =>
    show r.name = n
    unfold findRoleByName at hr
    exact beq_iff_eq.mp (@List.find?_some Role (fun x => x.name == n) r db.roles hr)
  case _ => rfl

theorem findOrCreateRole_mem (db : DB) (n : String) :
    (findOrCreateRole db n).1 ∈ ((findOrCreateRole db n).2).roles := by
  unfold findOrCreateRole
  split
  case _ r hr => exact List.mem_of_find?_eq_some hr
  case _ => simp

theorem findOrCreateRole_find (db : DB) (n : String) :
    findRoleByName ((findOrCreateRole db n).2) n = some (findOrCreateRole db n).1 := by
  unfold findOrCreateRole
  split
  case _ r hr => exact hr
  case _ hr =>
    unfold findRoleByName at hr ⊢
    simp only [List.find?_append, hr]
    simp

theorem findOrCreateRole_preserve (db : DB) (n m : String) (hne : ¬m = n) :
    findRoleByName ((findOrCreateRole db n).2) m = findRoleByName db m := by
  unfold findOrCreateRole
  split
  case _ r hr => rfl
  case _ hr =>
    unfold findRoleByName
    simp only [List.find?_append]
    have hnm : ¬n = m := fun hEq => hne hEq.symm
    have : (List.find? (fun r => r.name == m) [(⟨db.nextRoleId, n⟩ : Role)]) = none := by
      simp [hnm]
    rw [this]
    simp

theorem findOrCreateRole_of_found (db : DB) (n : String) (r : Role)
    (h : findRoleByName db n = some r) : findOrCreateRole db n = (r, db) := by
  simp [findOrCreateRole, h]

/-!
## Supporting lemmas: anatomy of `bootstrap`
-/

theorem findRoleByName_roles_eq (db1 db2 : DB) (h : db1.roles = db2.roles) (n : String) :
    findRoleByName db1 n = findRoleByName db2 n := by
  simp [findRoleByName, h]

theorem bootstrap_roles (salt : Nat) (db : DB) :
    (bootstrap salt db).roles =
      ((findOrCreateRole ((findOrCreateRole db "user").2) "admin").2).roles := by
  simp only [bootstrap]
  by_cases h : countUsers ((findOrCreateRole ((findOrCreateRole db "user").2) "admin").2) = 0
  · rw [if_pos h]
    cases hcu : createUser ((findOrCreateRole ((findOrCreateRole db "user").2) "admin").2)
        "admin" (bcryptHash salt "admin")
        ((findOrCreateRole ((findOrCreateRole db "user").2) "admin").1).id with
    | ok db3 =>
        show db3.roles = _
        rw [createUser_ok _ _ _ _ _ hcu]
    | error e => rfl
  · rw [if_neg h]

theorem bootstrap_users_ne_nil (salt : Nat) (db : DB) :
    (bootstrap salt db).users ≠ [] := by
  simp only [bootstrap]
  by_cases h : countUsers ((findOrCreateRole ((findOrCreateRole db "user").2) "admin").2) = 0
  · rw [if_pos h]
    have hempty : ((findOrCreateRole ((findOrCreateRole db "user").2) "admin").2).users = [] :=
      List.length_eq_zero.mp h
    have hok := createUser_ok_of ((findOrCreateRole ((findOrCreateRole db "user").2) "admin").2)
      "admin" (bcryptHash salt "admin")
      ((findOrCreateRole ((findOrCreateRole db "user").2) "admin").1).id
      (by simp [hempty]) ⟨_, findOrCreateRole_mem _ _, rfl⟩
    rw [hok]
    simp [hempty]
  · rw [if_neg h]
    exact fun hnil => h (by simp [countUsers, hnil])

theorem bootstrap_find_user (salt : Nat) (db : DB) :
    findRoleByName (bootstrap salt db) "user" = some (findOrCreateRole db "user").1 := by
  rw [findRoleByName_roles_eq _ _ (bootstrap_roles salt db) "user"]
  rw [findOrCreateRole_preserve _ "admin" "user" (by decide)]
  exact findOrCreateRole_find db "user"

theorem bootstrap_find_admin (salt : Nat) (db : DB) :
    findRoleByName (bootstrap salt db) "admin" =
      some (findOrCreateRole ((findOrCreateRole db "user").2) "admin").1 := by
  rw [findRoleByName_roles_eq _ _ (bootstrap_roles salt db) "admin"]
  exact findOrCreateRole_find _ "admin"

theorem bootstrap_of_found (s : Nat) (db : DB) (ru ra : Role)
    (hu : findRoleByName db "user" = some ru)
    (ha : findRoleByName db "admin" = some ra)
    (hne : db.users ≠ []) : bootstrap s db = db := by
  simp only [bootstrap, findOrCreateRole_of_found db "user" ru hu,
    findOrCreateRole_of_found db "admin" ra ha]
  rw [if_neg (show ¬countUsers db = 0 from fun h => hne (List.length_eq_zero.mp h))]

/-!
## Claims
-/

/-- Claim C1: round trip register-then-login.  Against a store with unique
role ids whose `"user"` role exists and in which the login is not yet
taken, `POST /register` redirects to `/login`, and a subsequent
`POST /login` with the same credentials redirects to `/profile` and
establishes a session whose `role` field equals `"user"`. -/
theorem register_then_login_roundtrip (db : DB) (salt : Nat) (lg pw : String) (r : Role)
    (hnd : (db.roles.map Role.id).Nodup)
    (hrole : findRoleByName db "user" = some r)
    (hnew : findUserByLogin db lg = none) :
    (postRegister none salt db lg pw).1 = Response.redirect "/login" ∧
    (postLogin none (postRegister none salt db lg pw).2 none lg pw).1 =
      Response.redirect "/profile" ∧
    (postLogin none (postRegister none salt db lg pw).2 none lg pw).2 =
      some ⟨db.nextUserId, lg, "user"⟩ := by
  have hrname : r.name = "user" := by
    unfold findRoleByName at hrole
    exact beq_iff_eq.mp (@List.find?_some Role (fun x => x.name == "user") r db.roles hrole)
  have hrmem : r ∈ db.roles := by
    unfold findRoleByName at hrole
    exact List.mem_of_find?_eq_some hrole
  have hl : ∀ x ∈ db.users, ¬x.login = lg := by
    unfold findUserByLogin at hnew
    intro x hx
    simpa using List.find?_eq_none.mp hnew x hx
  have hok := createUser_ok_of db lg (bcryptHash salt pw) r.id hl ⟨r, hrmem, rfl⟩
  have hreg : postRegister none salt db lg pw = (Response.redirect "/login",
      { db with
        users := db.users ++ [⟨db.nextUserId, lg, bcryptHash salt pw, r.id⟩],
        nextUserId := db.nextUserId + 1 }) := by
    simp [postRegister, hrole, hok]
  have hfind : findUserByLogin
      { db with
        users := db.users ++ [⟨db.nextUserId, lg, bcryptHash salt pw, r.id⟩],
        nextUserId := db.nextUserId + 1 } lg =
      some ⟨db.nextUserId, lg, bcryptHash salt pw, r.id⟩ := by
    unfold findUserByLogin at hnew ⊢
    simp only [List.find?_append, hnew]
    simp
  have hrid : findRoleById
      { db with
        users := db.users ++ [⟨db.nextUserId, lg, bcryptHash salt pw, r.id⟩],
        nextUserId := db.nextUserId + 1 } r.id = some r :=
    find_eq_of_mem_of_nodup Role.id db.roles hnd r hrmem r.id rfl
  have hlogin : postLogin none
      { db with
        users := db.users ++ [⟨db.nextUserId, lg, bcryptHash salt pw, r.id⟩],
        nextUserId := db.nextUserId + 1 } none lg pw =
      (Response.redirect "/profile", some ⟨db.nextUserId, lg, r.name⟩) := by
    simp [postLogin, hfind, bcryptCompare_hash, hrid]
  refine ⟨by rw [hreg], ?_, ?_⟩
  · rw [hreg]
    simp only []
    rw [hlogin]
  · rw [hreg]
    simp only []
    rw [hlogin, hrname]

/-- Witness for C1: on the freshly bootstrapped store, registering `alice`
and logging in as `alice` redirects to `/profile` with a `"user"` session. -/
theorem register_then_login_roundtrip_witness :
    (postRegister none 5 (bootstrap 0 emptyDB) "alice" "hunter2").1 =
      Response.redirect "/login" ∧
    (postLogin none (postRegister none 5 (bootstrap 0 emptyDB) "alice" "hunter2").2
      none "alice" "hunter2").1 = Response.redirect "/profile" ∧
    (postLogin none (postRegister none 5 (bootstrap 0 emptyDB) "alice" "hunter2").2
      none "alice" "hunter2").2 = some ⟨2, "alice", "user"⟩ :=
  register_then_login_roundtrip (bootstrap 0 emptyDB) 5 "alice" "hunter2" ⟨1, "user"⟩
    (by decide) (by decide) (by decide)

/-- Claim C2: role guard on `GET /admin`.  With no session the request
redirects to `/login`; with a session the guard re-loads the user from the
store by the session's id: if that user is gone it answers 403 with a plain
message; if it exists with an included Role, the handler answers 200
exactly when the role name is `"admin"` and 403 otherwise — never a
redirect. -/
theorem admin_role_guard (db : DB) (su : SessionUser) :
    getAdmin db none = Response.redirect "/login" ∧
    (findUserByPk db su.id = none →
      getAdmin db (some su) = Response.send 403 "Доступ запрещен") ∧
    (∀ u r, findUserByPk db su.id = some u → findRoleById db u.roleId = some r →
      (r.name = "admin" →
        getAdmin db (some su) =
          Response.send 200 "Добро пожаловать в админ-панель! Только для администраторов.") ∧
      (¬r.name = "admin" →
        getAdmin db (some su) = Response.send 403 "Доступ запрещен")) := by
  refine ⟨rfl, ?_, ?_⟩
  · intro h
    simp [getAdmin, isAuthenticated, hasRole, h]
  · intro u r hu hr
    constructor
    · intro hname
      simp [getAdmin, isAuthenticated, hasRole, hu, hr, hname]
    · intro hname
      simp [getAdmin, isAuthenticated, hasRole, hu, hr, hname]

/-- Witness for C2: the bootstrapped administrator reaches `/admin` and
gets the 200 welcome message. -/
theorem admin_role_guard_witness :
    getAdmin (bootstrap 0 emptyDB) (some ⟨1, "admin", "admin"⟩) =
      Response.send 200 "Добро пожаловать в админ-панель! Только для администраторов." :=
  ((admin_role_guard (bootstrap 0 emptyDB) ⟨1, "admin", "admin"⟩).2.2
    ⟨1, "admin", bcryptHash 0 "admin", 2⟩ ⟨2, "admin"⟩ (by decide) (by decide)).1 (by decide)

/-- Claim C3: failed login.  Whether the login is unknown or the bcrypt
verification against the stored hash fails, `POST /login` answers 401 with
the one generic message and the session is left untouched — the two cases
produce the identical response. -/
theorem failed_login_unauthorized (db : DB) (sess : Option SessionUser) (lg pw : String)
    (h : findUserByLogin db lg = none ∨
      ∃ u, findUserByLogin db lg = some u ∧ bcryptCompare pw u.password = false) :
    postLogin none db sess lg pw = (Response.send 401 "Неверный логин или пароль", sess) := by
  rcases h with h | ⟨u, hu, hc⟩
  · simp [postLogin, h]
  · simp [postLogin, hu, hc]

/-- Witness for C3: a wrong password for the existing `admin` account is
answered with 401 and no session is created. -/
theorem failed_login_unauthorized_witness :
    postLogin none (bootstrap 0 emptyDB) none "admin" "wrongpw" =
      (Response.send 401 "Неверный логин или пароль", none) :=
  failed_login_unauthorized (bootstrap 0 emptyDB) none "admin" "wrongpw"
    (Or.inr ⟨⟨1, "admin", bcryptHash 0 "admin", 2⟩, by decide, by decide⟩)

/-- Claim C4: duplicate registration is rejected atomically.  When the
login already exists (store has unique logins and the `"user"` role),
`POST /register` answers 400 carrying the constraint violation's message,
the store is returned unchanged, and exactly one `User` row with that
login exists afterwards. -/
theorem duplicate_registration_rejected (db : DB) (salt : Nat) (lg pw : String) (u : User)
    (hnd : (db.users.map User.login).Nodup)
    (hfound : findUserByLogin db lg = some u)
    (hrole : ∃ r, findRoleByName db "user" = some r) :
    postRegister none salt db lg pw =
      (Response.send 400 "Ошибка регистрации: Validation error", db) ∧
    ((postRegister none salt db lg pw).2.users.filter (fun x => x.login == lg)).length = 1 := by
  obtain ⟨r, hr⟩ := hrole
  unfold findUserByLogin at hfound
  have hmem := List.mem_of_find?_eq_some hfound
  have hlg : u.login = lg :=
    beq_iff_eq.mp (@List.find?_some User (fun x => x.login == lg) u db.users hfound)
  have hany : db.users.any (fun x => x.login == lg) = true := by
    rw [List.any_eq_true]
    exact ⟨u, hmem, by simp [hlg]⟩
  have hcu : createUser db lg (bcryptHash salt pw) r.id = Except.error "Validation error" := by
    simp [createUser, hany]
  have hpost : postRegister none salt db lg pw =
      (Response.send 400 "Ошибка регистрации: Validation error", db) := by
    simp [postRegister, hr, hcu]
  refine ⟨hpost, ?_⟩
  rw [hpost]
  exact length_filter_eq_one User.login db.users lg hnd u hmem hlg

/-- Witness for C4: re-registering the bootstrapped `admin` login fails
with 400, leaves the store as it was and exactly one `admin` row exists. -/
theorem duplicate_registration_rejected_witness :
    postRegister none 7 (bootstrap 0 emptyDB) "admin" "pw2" =
      (Response.send 400 "Ошибка регистрации: Validation error", bootstrap 0 emptyDB) ∧
    ((postRegister none 7 (bootstrap 0 emptyDB) "admin" "pw2").2.users.filter
      (fun x => x.login == "admin")).length = 1 :=
  duplicate_registration_rejected (bootstrap 0 emptyDB) 7 "admin" "pw2"
    ⟨1, "admin", bcryptHash 0 "admin", 2⟩ (by decide) (by decide) ⟨⟨1, "user"⟩, by decide⟩

/-- Claim C5: bootstrap default admin.  Starting against a store whose
`User` table is empty, bootstrap leaves exactly one user: login `"admin"`,
`roleId` referencing a role named `"admin"`, stored password different
from the literal `"admin"` yet verifying against `"admin"`.  Starting
against a non-empty `User` table, no user is created. -/
theorem bootstrap_default_admin (salt : Nat) (db : DB) :
    (db.users = [] →
      ∃ u, (bootstrap salt db).users = [u] ∧
        u.login = "admin" ∧
        (∃ r ∈ (bootstrap salt db).roles, r.id = u.roleId ∧ r.name = "admin") ∧
        u.password ≠ "admin" ∧
        bcryptCompare "admin" u.password = true) ∧
    (db.users ≠ [] → (bootstrap salt db).users = db.users) := by
  have husers2 : ((findOrCreateRole ((findOrCreateRole db "user").2) "admin").2).users =
      db.users := by
    rw [findOrCreateRole_users, findOrCreateRole_users]
  constructor
  · intro hempty
    have hnil : ((findOrCreateRole ((findOrCreateRole db "user").2) "admin").2).users = [] :=
      husers2.trans hempty
    have hcount : countUsers ((findOrCreateRole ((findOrCreateRole db "user").2) "admin").2) = 0 := by
      simp [countUsers, hnil]
    have hok := createUser_ok_of ((findOrCreateRole ((findOrCreateRole db "user").2) "admin").2)
      "admin" (bcryptHash salt "admin")
      ((findOrCreateRole ((findOrCreateRole db "user").2) "admin").1).id
      (by simp [hnil])
      ⟨(findOrCreateRole ((findOrCreateRole db "user").2) "admin").1,
        findOrCreateRole_mem _ _, rfl⟩
    have hbu : (bootstrap salt db).users =
        [⟨((findOrCreateRole ((findOrCreateRole db "user").2) "admin").2).nextUserId, "admin",
          bcryptHash salt "admin",
          ((findOrCreateRole ((findOrCreateRole db "user").2) "admin").1).id⟩] := by
      simp only [bootstrap]
      rw [if_pos hcount, hok]
      simp [hnil]
    refine ⟨_, hbu, rfl, ?_, bcryptHash_ne_plaintext salt "admin", bcryptCompare_hash salt "admin"⟩
    exact ⟨(findOrCreateRole ((findOrCreateRole db "user").2) "admin").1,
      by rw [bootstrap_roles]; exact findOrCreateRole_mem _ _,
      rfl, findOrCreateRole_name _ _⟩
  · intro hne
    simp only [bootstrap]
    rw [if_neg (show
      ¬countUsers ((findOrCreateRole ((findOrCreateRole db "user").2) "admin").2) = 0 from
      fun h => hne (husers2.symm.trans (List.length_eq_zero.mp h)))]
    exact husers2

/-- Witness for C5: bootstrapping the empty store yields the lone hashed
default administrator. -/
theorem bootstrap_default_admin_witness :
    ∃ u, (bootstrap 3 emptyDB).users = [u] ∧ u.login = "admin" ∧
      (∃ r ∈ (bootstrap 3 emptyDB).roles, r.id = u.roleId ∧ r.name = "admin") ∧
      u.password ≠ "admin" ∧ bcryptCompare "admin" u.password = true :=
  (bootstrap_default_admin 3 emptyDB).1 rfl

/-- Claim C6: authentication guard on `GET /profile`.  Without a session
the response is a bare redirect to `/login`; with a session the handler
answers 200 with a greeting carrying the session's login and a logout
link. -/
theorem profile_auth_guard (su : SessionUser) :
    getProfile none = Response.redirect "/login" ∧
    getProfile (some su) = Response.send 200
      ("Добро пожаловать, " ++ su.login ++ "! <a href=\"/logout\">Выйти</a>") :=
  ⟨rfl, rfl⟩

/-- Counterexample for C7: an infrastructure failure during
`POST /register` is answered with status 400 — not with the 500 the claim
asserts for every handler. -/
theorem register_infra_failure_not_500 :
    postRegister (some "SQLITE_CANTOPEN: unable to open database file") 0 emptyDB "alice" "pw" =
      (Response.send 400
        "Ошибка регистрации: SQLITE_CANTOPEN: unable to open database file", emptyDB) ∧
    ¬∃ body, (postRegister (some "SQLITE_CANTOPEN: unable to open database file")
        0 emptyDB "alice" "pw").1 = Response.send 500 body := by
  constructor
  · decide
  · rintro ⟨body, hb⟩
    simp [postRegister] at hb

/-- Claim C7 (amended): a store failure surfaces with the underlying error
text in the message, as a 500 from `POST /login` but as a 400 from
`POST /register`, whose catch-all renders every error — infrastructure
ones included — with status 400. -/
theorem infra_failure_status (msg : String) (salt : Nat) (db : DB)
    (sess : Option SessionUser) (lg pw : String) :
    postLogin (some msg) db sess lg pw =
      (Response.send 500 ("Ошибка сервера: " ++ msg), sess) ∧
    postRegister (some msg) salt db lg pw =
      (Response.send 400 ("Ошибка регистрации: " ++ msg), db) :=
  ⟨rfl, rfl⟩

/-- Claim C8: bootstrap idempotence.  Running the startup sequence a
second time over an already-bootstrapped store returns the store exactly
as it was — no role or user row is changed or duplicated. -/
theorem bootstrap_idempotent (s1 s2 : Nat) (db : DB) :
    bootstrap s2 (bootstrap s1 db) = bootstrap s1 db :=
  bootstrap_of_found s2 _ _ _ (bootstrap_find_user s1 db) (bootstrap_find_admin s1 db)
    (bootstrap_users_ne_nil s1 db)

/-- Claim C9: logout.  Every `GET /logout` answers with a redirect to `/`,
even when the session store reports an error on destroy; on the normal
path the session is destroyed and a following `GET /profile` redirects to
`/login` again. -/
theorem logout_destroys_and_redirects (e : Option String) (sess : Option SessionUser) :
    (getLogout e sess).1 = Response.redirect "/" ∧
    (getLogout none sess).2 = none ∧
    getProfile (getLogout none sess).2 = Response.redirect "/login" := by
  refine ⟨?_, rfl, rfl⟩
  cases e <;> rfl

/-- Claim C10: `GET /profile` trusts the session snapshot only.  Even when
the session's user no longer exists in the store, `/profile` still answers
200 with the snapshot's login — while `/admin`, which re-validates
against the store, answers 403 for the very same session. -/
theorem profile_trusts_session_snapshot (db : DB) (su : SessionUser)
    (hgone : findUserByPk db su.id = none) :
    getProfile (some su) = Response.send 200
      ("Добро пожаловать, " ++ su.login ++ "! <a href=\"/logout\">Выйти</a>") ∧
    getAdmin db (some su) = Response.send 403 "Доступ запрещен" :=
  ⟨rfl, by simp [getAdmin, isAuthenticated, hasRole, hgone]⟩

/-- Witness for C10: a session for a deleted user still reaches
`/profile` but is rejected by `/admin`. -/
theorem profile_trusts_session_snapshot_witness :
    getProfile (some ⟨42, "ghost", "admin"⟩) = Response.send 200
      "Добро пожаловать, ghost! <a href=\"/logout\">Выйти</a>" ∧
    getAdmin emptyDB (some ⟨42, "ghost", "admin"⟩) =
      Response.send 403 "Доступ запрещен" :=
  profile_trusts_session_snapshot emptyDB ⟨42, "ghost", "admin"⟩ rfl
